import Mathlib

/-
  Verification development for the students-reports complaint application
  (src/app.py, a Flask front end over a relational store).

  The embedding models the persistent store as in-memory lists of rows and
  each route handler as a pure function over that state.  Timestamps are
  natural numbers counting minutes since 0001-01-01 00:00 UTC.  The regional
  timezone (Africa/Johannesburg, SAST) is the fixed offset UTC+2; the spec
  describes day-bucketing as the UTC+2 date of the stored instant
  (specRegionalDayIndex), while the SQL expression the program actually
  executes on its timestamptz column re-interprets the UTC wall-clock as
  SAST and dates the result in the session timezone (dbSessionDayIndex,
  parametrised by the session offset).  Calendar dates carry year/month/day
  fields and follow the proleptic Gregorian rules of the Python datetime
  module, including constructor validation and timedelta subtraction.
-/

namespace StudentsReports

/-! ## Calendar dates (Python datetime.date semantics) -/

/-- A proleptic Gregorian calendar date, as produced by the Python datetime
module.  Valid dates have 1 <= year <= 9999, 1 <= month <= 12 and
1 <= day <= daysInMonth year month. -/
structure CalDate where
  year : Nat
  month : Nat
  day : Nat
deriving DecidableEq

/-- Gregorian leap-year rule, as in the Python calendar module. -/
def isLeapYear (y : Nat) : Bool :=
  (y % 4 == 0 && y % 100 != 0) || y % 400 == 0

/-- Number of days in a month of a given year. -/
def daysInMonth (y m : Nat) : Nat :=
  if m == 2 then (if isLeapYear y then 29 else 28)
  else if m == 4 || m == 6 || m == 9 || m == 11 then 30
  else 31

/-- Days in year y that precede the first day of month m. -/
def daysBeforeMonth (y m : Nat) : Nat :=
  ((List.range (m - 1)).map (fun i => daysInMonth y (i + 1))).sum

/-- Day ordinal of a calendar date: the number of days from 0001-01-01 to the
date (so 0001-01-01 has ordinal 0).  Monotone in the calendar order, hence
date equality and BETWEEN comparisons on dates are equality and interval
comparisons on ordinals. -/
def ordinalOfDate (d : CalDate) : Nat :=
  365 * (d.year - 1) + (d.year - 1) / 4 - (d.year - 1) / 100 + (d.year - 1) / 400
    + daysBeforeMonth d.year d.month + (d.day - 1)

/-- The calendar date one day earlier, with month and year borrow. -/
def prevDay (d : CalDate) : CalDate :=
  if 1 < d.day then { d with day := d.day - 1 }
  else if 1 < d.month then
    { year := d.year, month := d.month - 1, day := daysInMonth d.year (d.month - 1) }
  else { year := d.year - 1, month := 12, day := 31 }

/-- Subtraction of a whole number of days from a date; embeds the Python
expression d - timedelta(days = n). -/
def subDays (d : CalDate) : Nat → CalDate
  | 0 => d
  | n + 1 => subDays (prevDay d) n

/-- The Python date constructor date(y, m, d): validates the ranges of all
three fields and raises ValueError otherwise (modelled as none). -/
def dateFromYMD (y m d : Nat) : Option CalDate :=
  if 1 ≤ y ∧ y ≤ 9999 ∧ 1 ≤ m ∧ m ≤ 12 ∧ 1 ≤ d ∧ d ≤ daysInMonth y m then
    some ⟨y, m, d⟩
  else none

/-! ## Timestamps and the regional timezone -/

/-- A stored timestamp: minutes since 0001-01-01 00:00 in UTC semantics, as
held in the TIMESTAMP WITH TIME ZONE columns. -/
abbrev Timestamp := Nat

/-- Modelled from the spec: the conversion the spec describes - the stored
UTC instant converted to the fixed UTC+2 regional timezone and dated, i.e.
the day ordinal (t + 120) / 1440.  This is the spec-side bucketing used to
STATE the claimed properties; it is not the expression the program
executes (see dbSessionDayIndex). -/
def specRegionalDayIndex (t : Timestamp) : Nat := (t + 120) / 1440

/-- The day bucket the program actually computes.  The column created_at is
TIMESTAMP WITH TIME ZONE, so in the expression
DATE(created_at AT TIME ZONE UTC AT TIME ZONE Africa-Johannesburg)
the first AT TIME ZONE converts the timestamptz to the naive UTC wall-clock
t, the second re-interprets that naive value as SAST local time, producing
the instant t - 120 minutes, and DATE then dates that instant in the
session timezone (offset sessionOff minutes from UTC, not set anywhere by
the program).  The result is the floor of (t - 120 + sessionOff) / 1440 -
date(t - 120) under a UTC session, date(t) under a SAST session, and never
the UTC+2 regional date of the instant. -/
def dbSessionDayIndex (sessionOff : Int) (t : Timestamp) : Int :=
  ((t : Int) - 120 + sessionOff).fdiv 1440

/-! ## String parsing helpers (Python int and strptime), over lists of
characters -/

/-- Splits a character list at every dash, as Python period.split of a dash
does: adjacent dashes and boundary dashes yield empty components. -/
def splitDash : List Char → List (List Char)
  | [] => [[]]
  | c :: cs =>
    if c = '-' then [] :: splitDash cs
    else
      match splitDash cs with
      | [] => [[c]]
      | p :: ps => (c :: p) :: ps

/-- Strips leading and trailing whitespace, as Python int does before
parsing. -/
def trimWS (s : List Char) : List Char :=
  ((s.dropWhile Char.isWhitespace).reverse.dropWhile Char.isWhitespace).reverse

/-- Numeric value of a digit string, skipping underscore separators. -/
def natOfDigits (cs : List Char) : Nat :=
  cs.foldl (fun n c => if c.isDigit then n * 10 + (c.toNat - 48) else n) 0

/-- Checks the remainder of an int literal body: digits, with each
underscore followed by a digit (Python permits single underscores between
digits). -/
def underscoreTail : List Char → Bool
  | [] => true
  | c :: cs =>
    if c.isDigit then underscoreTail cs
    else if c == '_' then
      match cs with
      | [] => false
      | d :: _ => d.isDigit && underscoreTail cs
    else false

/-- The Python int constructor on a component obtained by splitting on
dashes (hence no minus sign can remain): surrounding whitespace, an optional
leading plus sign, then digits with optional underscore separators.  A
ValueError is modelled as none. -/
def pyNatOfChars (s : List Char) : Option Nat :=
  let t := trimWS s
  let t :=
    match t with
    | '+' :: rest => rest
    | _ => t
  match t with
  | [] => none
  | c :: cs =>
    if c.isDigit && underscoreTail (c :: cs) then some (natOfDigits (c :: cs))
    else none

/-- The strptime year field percent-Y: exactly four digits, as the CPython
TimeRE pattern for Y demands. -/
def strptimeYear (cs : List Char) : Option Nat :=
  match cs with
  | [a, b, c, d] =>
    if a.isDigit && b.isDigit && c.isDigit && d.isDigit then
      some (natOfDigits [a, b, c, d])
    else none
  | _ => none

/-- The strptime month field percent-m, per the CPython TimeRE pattern:
1 followed by 0 to 2, or 0 followed by 1 to 9, or a single digit 1 to 9. -/
def strptimeMonth (cs : List Char) : Option Nat :=
  match cs with
  | [a] => if '1' ≤ a ∧ a ≤ '9' then some (a.toNat - 48) else none
  | [a, b] =>
    if a = '1' ∧ '0' ≤ b ∧ b ≤ '2' then some (10 + (b.toNat - 48))
    else if a = '0' ∧ '1' ≤ b ∧ b ≤ '9' then some (b.toNat - 48)
    else none
  | _ => none

/-- The strptime day field percent-d, per the CPython TimeRE pattern:
3 followed by 0 or 1, or 1 or 2 followed by a digit, or 0 followed by
1 to 9, or a single digit 1 to 9, or a space-padded single digit. -/
def strptimeDay (cs : List Char) : Option Nat :=
  match cs with
  | [a] => if '1' ≤ a ∧ a ≤ '9' then some (a.toNat - 48) else none
  | [a, b] =>
    if a = '3' ∧ ('0' ≤ b ∧ b ≤ '1') then some (30 + (b.toNat - 48))
    else if ('1' ≤ a ∧ a ≤ '2') ∧ b.isDigit = true then
      some ((a.toNat - 48) * 10 + (b.toNat - 48))
    else if a = '0' ∧ '1' ≤ b ∧ b ≤ '9' then some (b.toNat - 48)
    else if a = ' ' ∧ '1' ≤ b ∧ b ≤ '9' then some (b.toNat - 48)
    else none
  | _ => none

/-- Embeds datetime.strptime(s, percent-Y dash percent-m dash percent-d)
followed by .date(), as used by the dashboard date filter: the three field
patterns of CPython TimeRE separated by literal dashes, anchored at both
ends, with the resulting values validated by the date constructor; any
failure raises ValueError (modelled as none). -/
def parse_search_date (s : String) : Option CalDate :=
  match splitDash s.data with
  | [ys, ms, ds] =>
    match strptimeYear ys, strptimeMonth ms, strptimeDay ds with
    | some y, some m, some d => dateFromYMD y m d
    | _, _, _ => none
  | _ => none

/-! ## Data model: rows and store state -/

/-- A row of the students table. -/
structure Student where
  id : Nat
  student_number : String
  name_surname : String
  created_at : Timestamp
deriving DecidableEq

/-- A row of the complaints table. -/
structure Complaint where
  id : Nat
  complaint_number : Nat
  name_surname : String
  student_number : String
  student_email : String
  block_number : String
  unit_number : String
  room_number : String
  complaint_text : String
  status : String
  created_at : Timestamp
  completed_at : Option Timestamp
deriving DecidableEq

/-- A row of the admin table. -/
structure AdminRow where
  id : Nat
  username : String
  password_hash : String
  created_at : Timestamp
deriving DecidableEq

/-- The persistent store: the three tables. -/
structure DBState where
  students : List Student
  complaints : List Complaint
  admins : List AdminRow
deriving DecidableEq

/-- The server-side session state relevant to the admin guard: the
admin_logged_in flag and the admin_username key. -/
structure Session where
  admin_logged_in : Bool
  admin_username : Option String
deriving DecidableEq

/-! ## Ordering by creation timestamp, most recent first -/

/-- The comparison realised by ORDER BY created_at DESC. -/
def byCreatedDesc (a b : Complaint) : Prop :=
  b.created_at ≤ a.created_at

instance : DecidableRel byCreatedDesc :=
  fun a b => Nat.decLe b.created_at a.created_at

instance : IsTotal Complaint byCreatedDesc :=
  ⟨fun a b => Nat.le_total b.created_at a.created_at⟩

instance : IsTrans Complaint byCreatedDesc :=
  ⟨fun _ _ _ hab hbc => le_trans hbc hab⟩

/-- Result list of a query with ORDER BY created_at DESC. -/
def sortByCreatedDesc (l : List Complaint) : List Complaint :=
  List.insertionSort byCreatedDesc l

/-! ## Route handlers -/

/-- The form fields of a complaint submission. -/
structure SubmitForm where
  name_surname : String
  student_number : String
  student_email : String
  block_number : String
  unit_number : String
  room_number : String
  complaint_text : String

/-- The JSON payload returned by submit_complaint. -/
structure SubmitResult where
  success : Bool
  complaint_number : Option Nat
deriving DecidableEq

/-- The submit_complaint handler (app.py lines 190 to 258).  sessionOff is
the database session timezone offset, today the current calendar date in
the regional timezone (datetime.now in the SAST zone, then .date()), now
the current instant, nextId the id the store assigns to the inserted row.
The handler rejects a student number absent from the roster; otherwise it
counts the complaints whose created_at, bucketed by the double AT TIME ZONE
expression evaluated in the session timezone, equals today, assigns that
count plus one as the complaint number, and inserts the new row with status
pending, creation timestamp now and a null completion timestamp. -/
def submit_complaint (sessionOff : Int) (db : DBState) (today : CalDate)
    (now : Timestamp) (nextId : Nat) (f : SubmitForm) : DBState × SubmitResult :=
  if db.students.any (fun s => s.student_number == f.student_number) then
    let today_complaints_count :=
      db.complaints.countP (fun c =>
        dbSessionDayIndex sessionOff c.created_at == (ordinalOfDate today : Int))
    let complaint_number := today_complaints_count + 1
    ({ db with complaints := db.complaints ++
        [{ id := nextId
           complaint_number := complaint_number
           name_surname := f.name_surname
           student_number := f.student_number
           student_email := f.student_email
           block_number := f.block_number
           unit_number := f.unit_number
           room_number := f.room_number
           complaint_text := f.complaint_text
           status := "pending"
           created_at := now
           completed_at := none }] },
     { success := true, complaint_number := some complaint_number })
  else
    (db, { success := false, complaint_number := none })

/-- The query part of the admin_dashboard handler (app.py lines 287 to 323):
with a truthy search_date parameter that strptime parses, the complaints
whose created_at, bucketed by the double AT TIME ZONE expression evaluated
in the session timezone, equals the parsed date, ordered by creation
timestamp descending; with an absent, empty or unparseable parameter, all
complaints in the same order. -/
def admin_dashboard (sessionOff : Int) (db : DBState)
    (search_date : Option String) : List Complaint :=
  match search_date with
  | some s =>
    if s == "" then sortByCreatedDesc db.complaints
    else
      match parse_search_date s with
      | some d =>
        sortByCreatedDesc (db.complaints.filter
          (fun c => dbSessionDayIndex sessionOff c.created_at ==
            (ordinalOfDate d : Int)))
      | none => sortByCreatedDesc db.complaints
  | none => sortByCreatedDesc db.complaints

/-- The month-token branch of download_complaints (app.py lines 380 to 393):
year and month from splitting the period on dashes and applying int, the
range from the first of the month to the first of the next month minus one
day, with the December case rolling the year; any exception inside the try
block (wrong component count, int failure, date out of range) is caught and
modelled as none. -/
def month_token_range (period : String) : Option (CalDate × CalDate) :=
  match (splitDash period.data).map pyNatOfChars with
  | [some y, some m] =>
    match dateFromYMD y m 1 with
    | some s =>
      if m == 12 then
        match dateFromYMD (y + 1) 1 1 with
        | some r => some (s, subDays r 1)
        | none => none
      else
        match dateFromYMD y (m + 1) 1 with
        | some r => some (s, subDays r 1)
        | none => none
    | none => none
  | _ => none

/-- The period selector of download_complaints (app.py lines 362 to 393):
maps a period token and the current regional date to an inclusive date
range, none meaning no date filter.  Unrecognised tokens that do not parse
as a month token fall back to the today range. -/
def report_date_range (period : String) (today : CalDate) :
    Option (CalDate × CalDate) :=
  if period == "today" then some (today, today)
  else if period == "week" then some (subDays today 7, today)
  else if period == "month" then some (⟨today.year, today.month, 1⟩, today)
  else if period == "all" then none
  else
    match month_token_range period with
    | some r => some r
    | none => some (today, today)

/-- The selection part of download_complaints (app.py lines 395 to 403):
complaints whose created_at, bucketed by the double AT TIME ZONE expression
evaluated in the session timezone, lies in the computed range (BETWEEN is
inclusive on both ends), or all complaints when there is no filter, ordered
by creation timestamp descending. -/
def download_complaints (sessionOff : Int) (db : DBState) (period : String)
    (today : CalDate) : List Complaint :=
  match report_date_range period today with
  | some (s, e) =>
    sortByCreatedDesc (db.complaints.filter
      (fun c => decide ((ordinalOfDate s : Int) ≤ dbSessionDayIndex sessionOff c.created_at ∧
        dbSessionDayIndex sessionOff c.created_at ≤ (ordinalOfDate e : Int))))
  | none => sortByCreatedDesc db.complaints

/-- The update_status handler (app.py lines 424 to 460).  new_status is the
status field of the JSON body (none when absent).  Values other than
pending and completed are rejected without touching the store; completed
sets the status and stamps completed_at with the current time; pending sets
the status and clears completed_at.  The UPDATE affects every row whose id
matches and reports success regardless of how many rows that is. -/
def update_status (db : DBState) (now : Timestamp) (complaint_id : Nat)
    (new_status : Option String) : DBState × Bool :=
  match new_status with
  | some st =>
    if st == "pending" || st == "completed" then
      if st == "completed" then
        let upd := db.complaints.map (fun c =>
          if c.id == complaint_id then
            { c with status := st, completed_at := some now }
          else c)
        ({ db with complaints := upd }, true)
      else
        let upd := db.complaints.map (fun c =>
          if c.id == complaint_id then
            { c with status := st, completed_at := none }
          else c)
        ({ db with complaints := upd }, true)
    else (db, false)
  | none => (db, false)

/-- Python truthiness of an optional JSON string field: falsy when the key
is absent or the string is empty. -/
def falsy : Option String → Bool
  | none => true
  | some s => s == ""

/-- The add_student handler (app.py lines 462 to 497): rejects a missing or
empty student number or name, rejects a student number already in the
roster, and otherwise inserts a new row whose creation timestamp is filled
in automatically by the store (the current instant now). -/
def add_student (db : DBState) (now : Timestamp) (nextId : Nat)
    (student_number name_surname : Option String) : DBState × Bool :=
  if falsy student_number || falsy name_surname then (db, false)
  else if db.students.any (fun s => s.student_number == student_number.getD "") then
    (db, false)
  else
    ({ db with students := db.students ++
        [{ id := nextId
           student_number := student_number.getD ""
           name_surname := name_surname.getD ""
           created_at := now }] },
     true)

/-- The delete_student handler (app.py lines 499 to 534): looks up the
student by id (fetchone, the first matching row); if absent, a not-found
failure; otherwise deletes every student row with that id and every
complaint whose student number equals the student number of the looked-up
row. -/
def delete_student (db : DBState) (student_id : Nat) : DBState × Bool :=
  match db.students.find? (fun s => s.id == student_id) with
  | none => (db, false)
  | some st =>
    let studs := db.students.filter (fun s => !(s.id == student_id))
    let comps := db.complaints.filter (fun c =>
      !(c.student_number == st.student_number))
    ({ db with students := studs, complaints := comps }, true)

/-- The admin_login handler, POST branch (app.py lines 260 to 285).  check
abstracts the werkzeug check_password_hash verifier, an external library
function taking the stored hash and the supplied password.  The handler
fetches the first admin row with the supplied username; on a verifying
password it sets the session flag and username, otherwise the session is
left untouched and the login fails. -/
def admin_login (db : DBState) (check : String → String → Bool)
    (username password : String) (s : Session) : Session × Bool :=
  match db.admins.find? (fun a => a.username == username) with
  | some a =>
    if check a.password_hash password then
      ({ admin_logged_in := true, admin_username := some username }, true)
    else (s, false)
  | none => (s, false)

/-- The admin_logout handler (app.py lines 536 to 540): pops both session
keys. -/
def admin_logout (_s : Session) : Session :=
  { admin_logged_in := false, admin_username := none }

/-- The per-complaint invariant: the completion timestamp is non-null
exactly when the status is completed. -/
def complaintConsistent (c : Complaint) : Prop :=
  c.completed_at ≠ none ↔ c.status = "completed"

/-! ## Concrete store states and inputs used by the witness theorems -/

def stuW1 : Student :=
  { id := 1, student_number := "S1", name_surname := "A B", created_at := 0 }

def dbW1 : DBState :=
  { students := [stuW1], complaints := [], admins := [] }

def formW1 : SubmitForm :=
  { name_surname := "A B"
    student_number := "S1"
    student_email := "a@b.c"
    block_number := "1"
    unit_number := "2"
    room_number := "3"
    complaint_text := "broken tap" }

def compW4 : Complaint :=
  { id := 1
    complaint_number := 1
    name_surname := "A B"
    student_number := "S1"
    student_email := "a@b.c"
    block_number := "1"
    unit_number := "2"
    room_number := "3"
    complaint_text := "t"
    status := "pending"
    created_at := 10
    completed_at := none }

def dbW4 : DBState :=
  { students := [], complaints := [compW4], admins := [] }

def compW8 : Complaint :=
  { compW4 with id := 2, created_at := 1440 * ordinalOfDate ⟨2024, 6, 15⟩ }

def dbW8 : DBState :=
  { students := [], complaints := [compW8], admins := [] }

def dbW5 : DBState :=
  { students := [stuW1], complaints := [], admins := [] }

/-- The complaint row produced by submitting formW1 against dbW5 at instant
77 with store-assigned id 9. -/
def compW5 : Complaint :=
  { id := 9
    complaint_number := 1
    name_surname := "A B"
    student_number := "S1"
    student_email := "a@b.c"
    block_number := "1"
    unit_number := "2"
    room_number := "3"
    complaint_text := "broken tap"
    status := "pending"
    created_at := 77
    completed_at := none }

def dbW6 : DBState :=
  { students := [stuW1], complaints := [compW4], admins := [] }

def admW9 : AdminRow :=
  { id := 1, username := "admin", password_hash := "H1", created_at := 0 }

def dbW9 : DBState :=
  { students := [], complaints := [], admins := [admW9] }

def checkW9 : String → String → Bool :=
  fun h p => h == "H1" && p == "pw"

def dbW10 : DBState :=
  { students := [], complaints := [], admins := [] }

/-- A complaint stored 90 minutes before 00:00 UTC of 2024-06-15, i.e. at
22:30 UTC on 2024-06-14, which is 00:30 SAST on 2024-06-15: its regional
UTC+2 date is 2024-06-15, but the double AT TIME ZONE bucket under a UTC
session is 2024-06-13T22:30 dated, i.e. 2024-06-14. -/
def compCX1 : Complaint :=
  { compW4 with id := 11, created_at := 1440 * ordinalOfDate ⟨2024, 6, 15⟩ - 90 }

def dbCX1 : DBState :=
  { students := [stuW1], complaints := [compCX1], admins := [] }

/-- The current instant for the C1 counterexample: 00:30 SAST on
2024-06-15. -/
def nowCX1 : Timestamp := 1440 * ordinalOfDate ⟨2024, 6, 15⟩ + 30

/-- A complaint at 00:30 SAST on 2024-06-08, the first day of the claimed
week range for today = 2024-06-15. -/
def compCX3 : Complaint :=
  { compW4 with id := 31, created_at := 1440 * ordinalOfDate ⟨2024, 6, 8⟩ - 90 }

def dbCX3 : DBState :=
  { students := [], complaints := [compCX3], admins := [] }

/-- A complaint at 00:30 SAST on 2024-06-15, for the dashboard filter
counterexample. -/
def compCX8 : Complaint :=
  { compW4 with id := 81, created_at := 1440 * ordinalOfDate ⟨2024, 6, 15⟩ - 90 }

def dbCX8 : DBState :=
  { students := [], complaints := [compCX8], admins := [] }

end StudentsReports

namespace StudentsReports

/-! ## Claim theorems -/

/-- C1 counterexample: a submission whose student number is in the roster,
on a store holding one complaint whose stored creation timestamp converted
from UTC to the fixed regional timezone falls on the current regional date
(00:30 SAST of today), so the claim demands the assigned number
0 + 1 + 1 = 2; yet under a UTC session the program counts by the double
AT TIME ZONE bucket, which dates that complaint a day earlier, and returns
complaint number 1. -/
theorem submit_daily_number_counterexample :
    (∃ s ∈ dbCX1.students, s.student_number = formW1.student_number) ∧
    specRegionalDayIndex compCX1.created_at = ordinalOfDate ⟨2024, 6, 15⟩ ∧
    dbCX1.complaints.countP
      (fun c => specRegionalDayIndex c.created_at == ordinalOfDate ⟨2024, 6, 15⟩) + 1 = 2 ∧
    (submit_complaint 0 dbCX1 ⟨2024, 6, 15⟩ nowCX1 5 formW1).2.success = true ∧
    (submit_complaint 0 dbCX1 ⟨2024, 6, 15⟩ nowCX1 5 formW1).2.complaint_number =
      some 1 := by
  refine ⟨⟨stuW1, by simp [dbCX1], rfl⟩, by decide, by decide, by decide, by decide⟩

/-- C1 amended: for every complaint submission whose student number exists
in the roster, the assigned complaint number equals the count, taken before
insertion, of complaints whose created_at falls on the current
regional-timezone calendar date under the bucketing the program executes -
the double AT TIME ZONE expression evaluated in the session timezone, which
re-interprets the UTC wall-clock as SAST rather than converting to the
regional timezone - plus 1, and this number is returned to the caller in
the success payload. -/
theorem submit_assigns_daily_number (sessionOff : Int) (db : DBState)
    (today : CalDate) (now : Timestamp) (nextId : Nat) (f : SubmitForm)
    (h : ∃ s ∈ db.students, s.student_number = f.student_number) :
    (submit_complaint sessionOff db today now nextId f).2.success = true ∧
    (submit_complaint sessionOff db today now nextId f).2.complaint_number =
      some (db.complaints.countP
        (fun c => dbSessionDayIndex sessionOff c.created_at ==
          (ordinalOfDate today : Int)) + 1) := by
  have hb : db.students.any (fun s => s.student_number == f.student_number) = true := by
    rcases h with ⟨s, hs, he⟩
    exact List.any_eq_true.2 ⟨s, hs, by simp [he]⟩
  simp [submit_complaint, hb]

theorem submit_assigns_daily_number_witness :
    (submit_complaint 0 dbW1 ⟨2024, 6, 15⟩ 5 1 formW1).2.success = true ∧
    (submit_complaint 0 dbW1 ⟨2024, 6, 15⟩ 5 1 formW1).2.complaint_number =
      some 1 :=
  submit_assigns_daily_number 0 dbW1 ⟨2024, 6, 15⟩ 5 1 formW1
    ⟨stuW1, by simp [dbW1], rfl⟩

/-- C2: for every complaint submission whose student number has no matching
row in the students table, the operation returns a failure payload and
inserts no complaint row: the store is unchanged. -/
theorem submit_unknown_student_rejected (sessionOff : Int) (db : DBState)
    (today : CalDate) (now : Timestamp) (nextId : Nat) (f : SubmitForm)
    (h : ∀ s ∈ db.students, s.student_number ≠ f.student_number) :
    submit_complaint sessionOff db today now nextId f =
      (db, { success := false, complaint_number := none }) := by
  have hb : db.students.any (fun s => s.student_number == f.student_number) = false := by
    rw [List.any_eq_false]
    intro s hs
    simpa using h s hs
  simp [submit_complaint, hb]

theorem submit_unknown_student_rejected_witness :
    submit_complaint 0 dbW1 ⟨2024, 6, 15⟩ 5 1
      { formW1 with student_number := "S9" } =
      (dbW1, { success := false, complaint_number := none }) :=
  submit_unknown_student_rejected 0 dbW1 ⟨2024, 6, 15⟩ 5 1
    { formW1 with student_number := "S9" } (by simp [dbW1, stuW1])

/-- C4: for every status-update request on a complaint: requesting completed
sets the status of every row with the given id to completed and its
completion timestamp to the current regional-timezone time (non-null);
requesting pending sets the status to pending and the completion timestamp
to null; any other requested status value (or an absent one) is rejected as
invalid input and no complaint row is mutated. -/
theorem update_status_transitions (db : DBState) (now : Timestamp) (cid : Nat) :
    (∀ st : String, st ≠ "pending" → st ≠ "completed" →
      update_status db now cid (some st) = (db, false)) ∧
    update_status db now cid none = (db, false) ∧
    (∀ c ∈ (update_status db now cid (some "completed")).1.complaints,
      c.id = cid → c.status = "completed" ∧ c.completed_at = some now) ∧
    (∀ c ∈ (update_status db now cid (some "pending")).1.complaints,
      c.id = cid → c.status = "pending" ∧ c.completed_at = none) := by
  refine ⟨?_, rfl, ?_, ?_⟩
  · intro st h1 h2
    simp [update_status, h1, h2]
  · intro c hc hid
    have hc2 : c ∈ db.complaints.map (fun c =>
        if c.id == cid then
          { c with status := "completed", completed_at := some now }
        else c) := hc
    obtain ⟨a, ha, hac⟩ := List.mem_map.1 hc2
    by_cases h : a.id = cid
    · simp only [h, beq_self_eq_true, if_true] at hac
      rw [← hac]
      exact ⟨rfl, rfl⟩
    · simp only [beq_eq_false_iff_ne.2 h, Bool.false_eq_true, if_false] at hac
      rw [← hac] at hid
      exact absurd hid h
  · intro c hc hid
    have hc2 : c ∈ db.complaints.map (fun c =>
        if c.id == cid then
          { c with status := "pending", completed_at := none }
        else c) := hc
    obtain ⟨a, ha, hac⟩ := List.mem_map.1 hc2
    by_cases h : a.id = cid
    · simp only [h, beq_self_eq_true, if_true] at hac
      rw [← hac]
      exact ⟨rfl, rfl⟩
    · simp only [beq_eq_false_iff_ne.2 h, Bool.false_eq_true, if_false] at hac
      rw [← hac] at hid
      exact absurd hid h

theorem update_status_transitions_witness :
    update_status dbW4 20 1 (some "resolved") = (dbW4, false) :=
  (update_status_transitions dbW4 20 1).1 "resolved" (by decide) (by decide)

end StudentsReports

namespace StudentsReports

/-- C3 counterexample: a complaint created at 00:30 SAST on 2024-06-08,
whose regional-timezone date 2024-06-08 lies inside the claimed week range
for today = 2024-06-15, is not selected by the week report under a UTC
session, because the double AT TIME ZONE bucket dates it 2024-06-07. -/
theorem report_week_selection_counterexample :
    specRegionalDayIndex compCX3.created_at = ordinalOfDate ⟨2024, 6, 8⟩ ∧
    compCX3 ∈ dbCX3.complaints ∧
    compCX3 ∉ download_complaints 0 dbCX3 "week" ⟨2024, 6, 15⟩ := by
  refine ⟨by decide, by decide, by decide⟩

/-- C3 amended: the report-period selector maps tokens to date ranges: for
today = 2024-06-15, token week computes the range 2024-06-08 through
2024-06-15 inclusive; token 2024-02 computes Feb 1 through Feb 29, 2024
inclusive (leap year handled); month and year rollover are handled,
December of year y ending at Dec 31 of y; token all applies no date filter;
and any token that parses as none of the enumerated forms falls back to the
today range.  The selection, however, buckets each complaint not by its
regional-timezone date but by the double AT TIME ZONE expression evaluated
in the session timezone. -/
theorem report_period_selector :
    report_date_range "week" ⟨2024, 6, 15⟩ =
      some (⟨2024, 6, 8⟩, ⟨2024, 6, 15⟩) ∧
    (∀ t : CalDate, report_date_range "2024-02" t =
      some (⟨2024, 2, 1⟩, ⟨2024, 2, 29⟩)) ∧
    (∀ t : CalDate, report_date_range "2024-12" t =
      some (⟨2024, 12, 1⟩, ⟨2024, 12, 31⟩)) ∧
    (∀ y : Nat, subDays ⟨y + 1, 1, 1⟩ 1 = ⟨y, 12, 31⟩) ∧
    (∀ (off : Int) (db : DBState), download_complaints off db "all" ⟨2024, 6, 15⟩ =
      sortByCreatedDesc db.complaints) ∧
    (∀ (off : Int) (db : DBState) (c : Complaint),
      c ∈ download_complaints off db "week" ⟨2024, 6, 15⟩ ↔
        c ∈ db.complaints ∧
          (ordinalOfDate ⟨2024, 6, 8⟩ : Int) ≤ dbSessionDayIndex off c.created_at ∧
          dbSessionDayIndex off c.created_at ≤ (ordinalOfDate ⟨2024, 6, 15⟩ : Int)) ∧
    (∀ (tok : String) (t : CalDate), tok ≠ "today" → tok ≠ "week" →
      tok ≠ "month" → tok ≠ "all" → month_token_range tok = none →
      report_date_range tok t = some (t, t)) := by
  refine ⟨rfl, fun t => rfl, fun t => rfl, fun y => rfl, fun off db => rfl, ?_, ?_⟩
  · intro off db c
    have he : download_complaints off db "week" ⟨2024, 6, 15⟩ =
        sortByCreatedDesc (db.complaints.filter
          (fun c => decide ((ordinalOfDate ⟨2024, 6, 8⟩ : Int) ≤ dbSessionDayIndex off c.created_at ∧
            dbSessionDayIndex off c.created_at ≤ (ordinalOfDate ⟨2024, 6, 15⟩ : Int)))) := rfl
    rw [he]
    simp [sortByCreatedDesc, List.mem_insertionSort, List.mem_filter, and_assoc]
  · intro tok t h1 h2 h3 h4 h5
    simp [report_date_range, h1, h2, h3, h4, h5]

theorem report_period_selector_witness :
    report_date_range "nonsense" ⟨2024, 6, 15⟩ =
      some (⟨2024, 6, 15⟩, ⟨2024, 6, 15⟩) :=
  report_period_selector.2.2.2.2.2.2 "nonsense" ⟨2024, 6, 15⟩
    (by decide) (by decide) (by decide) (by decide) rfl

/-- C8 counterexample: the filter string 2024-06-15 parses, and the store
holds a complaint created at 00:30 SAST on 2024-06-15, whose creation
timestamp converted from stored UTC to the fixed regional timezone has
exactly that calendar date; yet under a UTC session the dashboard filter
does not return it, because the double AT TIME ZONE bucket dates it
2024-06-14. -/
theorem dashboard_filter_counterexample :
    parse_search_date "2024-06-15" = some ⟨2024, 6, 15⟩ ∧
    specRegionalDayIndex compCX8.created_at = ordinalOfDate ⟨2024, 6, 15⟩ ∧
    compCX8 ∈ dbCX8.complaints ∧
    compCX8 ∉ admin_dashboard 0 dbCX8 (some "2024-06-15") := by
  refine ⟨rfl, by decide, by decide, by decide⟩

/-- C8 amended: the dashboard list with a date filter string that parses
per the strptime format (a four-digit year, a one- or two-digit month, and
a two-digit, single-digit or space-padded day, validated as a date) returns
exactly the complaints whose created_at, bucketed by the double AT TIME
ZONE expression evaluated in the session timezone rather than converted to
the regional timezone, has the parsed date; an unparseable or absent date
string returns the unfiltered list; in both cases results are ordered by
creation timestamp, most recent first. -/
theorem dashboard_date_filter (off : Int) (db : DBState) (s : String)
    (d : CalDate) (c : Complaint) (hp : parse_search_date s = some d)
    (hne : s ≠ "") :
    (c ∈ admin_dashboard off db (some s) ↔
      c ∈ db.complaints ∧ dbSessionDayIndex off c.created_at = (ordinalOfDate d : Int)) ∧
    List.Pairwise byCreatedDesc (admin_dashboard off db (some s)) ∧
    (∀ s2 : String, parse_search_date s2 = none →
      admin_dashboard off db (some s2) = sortByCreatedDesc db.complaints) ∧
    admin_dashboard off db none = sortByCreatedDesc db.complaints ∧
    List.Pairwise byCreatedDesc (sortByCreatedDesc db.complaints) := by
  have hb : (s == "") = false := beq_eq_false_iff_ne.2 hne
  have he : admin_dashboard off db (some s) =
      sortByCreatedDesc (db.complaints.filter
        (fun c => dbSessionDayIndex off c.created_at == (ordinalOfDate d : Int))) := by
    simp [admin_dashboard, hb, hp]
  refine ⟨?_, ?_, ?_, rfl, List.sorted_insertionSort byCreatedDesc db.complaints⟩
  · rw [he]
    simp [sortByCreatedDesc, List.mem_insertionSort, List.mem_filter]
  · rw [he]
    exact List.sorted_insertionSort byCreatedDesc _
  · intro s2 h2
    by_cases h3 : s2 = ""
    · simp [admin_dashboard, h3]
    · simp [admin_dashboard, beq_eq_false_iff_ne.2 h3, h2]

theorem dashboard_date_filter_witness :
    compW8 ∈ admin_dashboard 0 dbW8 (some "2024-06-15") ↔
      compW8 ∈ dbW8.complaints ∧
        dbSessionDayIndex 0 compW8.created_at = (ordinalOfDate ⟨2024, 6, 15⟩ : Int) :=
  (dashboard_date_filter 0 dbW8 "2024-06-15" ⟨2024, 6, 15⟩ compW8 rfl
    (by decide)).1

end StudentsReports

namespace StudentsReports

/-- C5: every operation of the system preserves the invariant that a
complaint completion timestamp is non-null if and only if its status is
completed: a newly inserted complaint has status pending and null
completion timestamp, and the only operation writing either field writes
them together consistently. -/
theorem completion_timestamp_invariant (db : DBState)
    (hinv : ∀ c ∈ db.complaints, complaintConsistent c) :
    (∀ (off : Int) (today : CalDate) (now : Timestamp) (nextId : Nat) (f : SubmitForm),
      ∀ c ∈ (submit_complaint off db today now nextId f).1.complaints,
        complaintConsistent c ∧
          (c ∈ db.complaints ∨ (c.status = "pending" ∧ c.completed_at = none))) ∧
    (∀ (now : Timestamp) (cid : Nat) (st : Option String),
      ∀ c ∈ (update_status db now cid st).1.complaints, complaintConsistent c) ∧
    (∀ (now : Timestamp) (nextId : Nat) (sn nm : Option String),
      ∀ c ∈ (add_student db now nextId sn nm).1.complaints, complaintConsistent c) ∧
    (∀ sid : Nat, ∀ c ∈ (delete_student db sid).1.complaints,
      complaintConsistent c) := by
  refine ⟨?_, ?_, ?_, ?_⟩
  · intro off today now nextId f c hc
    unfold submit_complaint at hc
    split at hc
    · simp only at hc
      rcases List.mem_append.1 hc with h | h
      · exact ⟨hinv c h, Or.inl h⟩
      · rw [List.mem_singleton] at h
        subst h
        exact ⟨by simp [complaintConsistent], Or.inr ⟨rfl, rfl⟩⟩
    · exact ⟨hinv c hc, Or.inl hc⟩
  · intro now cid st c hc
    match st with
    | none => exact hinv c hc
    | some s =>
      by_cases hsc : s = "completed"
      · subst hsc
        have hc2 : c ∈ db.complaints.map (fun a =>
            if a.id == cid then
              { a with status := "completed", completed_at := some now }
            else a) := hc
        obtain ⟨a, ha, hac⟩ := List.mem_map.1 hc2
        by_cases h : a.id = cid
        · simp only [h, beq_self_eq_true, if_true] at hac
          rw [← hac]
          simp [complaintConsistent]
        · simp only [beq_eq_false_iff_ne.2 h, Bool.false_eq_true, if_false] at hac
          rw [← hac]
          exact hinv a ha
      · by_cases hsp : s = "pending"
        · subst hsp
          have hc2 : c ∈ db.complaints.map (fun a =>
              if a.id == cid then
                { a with status := "pending", completed_at := none }
              else a) := hc
          obtain ⟨a, ha, hac⟩ := List.mem_map.1 hc2
          by_cases h : a.id = cid
          · simp only [h, beq_self_eq_true, if_true] at hac
            rw [← hac]
            simp [complaintConsistent]
          · simp only [beq_eq_false_iff_ne.2 h, Bool.false_eq_true, if_false] at hac
            rw [← hac]
            exact hinv a ha
        · have he : update_status db now cid (some s) = (db, false) := by
            simp [update_status, hsp, hsc]
          rw [he] at hc
          exact hinv c hc
  · intro now nextId sn nm c hc
    unfold add_student at hc
    split at hc
    · exact hinv c hc
    · split at hc
      · exact hinv c hc
      · exact hinv c hc
  · intro sid c hc
    unfold delete_student at hc
    split at hc
    · exact hinv c hc
    · simp only [List.mem_filter] at hc
      exact hinv c hc.1

theorem completion_timestamp_invariant_witness :
    complaintConsistent compW5 ∧
      (compW5 ∈ dbW5.complaints ∨
        (compW5.status = "pending" ∧ compW5.completed_at = none)) :=
  (completion_timestamp_invariant dbW5 (by simp [dbW5])).1
    0 ⟨2024, 6, 15⟩ 77 9 formW1 compW5
    (by simp [submit_complaint, dbW5, stuW1, formW1, compW5])

/-- C6: for every student present in the roster (the first row matching the
requested id), the delete-student operation succeeds, removes every student
row with that id and every complaint whose student number equals the
student number of the deleted student, keeping all other complaints, so
that afterwards zero complaints reference that student number. -/
theorem delete_student_cascades (db : DBState) (sid : Nat) (st : Student)
    (h : db.students.find? (fun s => s.id == sid) = some st) :
    (delete_student db sid).2 = true ∧
    (∀ s ∈ (delete_student db sid).1.students, s.id ≠ sid) ∧
    (∀ c ∈ (delete_student db sid).1.complaints,
      c.student_number ≠ st.student_number) ∧
    (∀ c ∈ db.complaints, c.student_number ≠ st.student_number →
      c ∈ (delete_student db sid).1.complaints) := by
  refine ⟨by simp [delete_student, h], ?_, ?_, ?_⟩
  · intro s hs
    have hs2 : s ∈ db.students.filter (fun s => !(s.id == sid)) := by
      simpa [delete_student, h] using hs
    have := (List.mem_filter.1 hs2).2
    simpa using this
  · intro c hc
    have hc2 : c ∈ db.complaints.filter
        (fun c => !(c.student_number == st.student_number)) := by
      simpa [delete_student, h] using hc
    have := (List.mem_filter.1 hc2).2
    simpa using this
  · intro c hc hne
    have hc2 : c ∈ db.complaints.filter
        (fun c => !(c.student_number == st.student_number)) :=
      List.mem_filter.2 ⟨hc, by simpa using hne⟩
    simpa [delete_student, h] using hc2

theorem delete_student_cascades_witness :
    (delete_student dbW6 1).2 = true :=
  (delete_student_cascades dbW6 1 stuW1 (by simp [dbW6, stuW1, List.find?])).1

/-- C7: the add-student operation rejects a request whose student number or
name is missing or empty (Python falsiness of the JSON fields), rejects
with a conflict failure a student number already present in the roster, and
in every rejection case the store is unchanged; otherwise a new row with an
automatic creation timestamp (the current instant, as the store default
fills in) is appended to the students table and the complaints table is
untouched. -/
theorem add_student_validation (db : DBState) (now : Timestamp) (nextId : Nat)
    (sn nm : Option String) :
    ((falsy sn || falsy nm) = true →
      add_student db now nextId sn nm = (db, false)) ∧
    ((falsy sn || falsy nm) = false →
      (∃ s ∈ db.students, s.student_number = sn.getD "") →
      add_student db now nextId sn nm = (db, false)) ∧
    ((falsy sn || falsy nm) = false →
      (∀ s ∈ db.students, s.student_number ≠ sn.getD "") →
      (add_student db now nextId sn nm).2 = true ∧
      (add_student db now nextId sn nm).1.students = db.students ++
        [{ id := nextId, student_number := sn.getD "", name_surname := nm.getD "", created_at := now }] ∧
      (add_student db now nextId sn nm).1.complaints = db.complaints) := by
  refine ⟨?_, ?_, ?_⟩
  · intro h
    simp [add_student, h]
  · intro h hex
    have hb : db.students.any (fun s => s.student_number == sn.getD "") = true := by
      rcases hex with ⟨s, hs, he⟩
      exact List.any_eq_true.2 ⟨s, hs, by simp [he]⟩
    simp [add_student, h, hb]
  · intro h hall
    have hb : db.students.any (fun s => s.student_number == sn.getD "") = false := by
      rw [List.any_eq_false]
      intro s hs
      simpa using hall s hs
    refine ⟨by simp [add_student, h, hb], by simp [add_student, h, hb], by simp [add_student, h, hb]⟩

theorem add_student_validation_witness :
    (add_student dbW1 3 2 (some "S2") (some "C D")).2 = true ∧
    (add_student dbW1 3 2 (some "S2") (some "C D")).1.students =
      dbW1.students ++
        [{ id := 2, student_number := "S2", name_surname := "C D", created_at := 3 }] ∧
    (add_student dbW1 3 2 (some "S2") (some "C D")).1.complaints =
      dbW1.complaints :=
  (add_student_validation dbW1 3 2 (some "S2") (some "C D")).2.2
    (by decide) (by simp [dbW1, stuW1])

end StudentsReports

namespace StudentsReports

/-- C9: the login operation establishes the admin session (flag plus
username) if and only if an admin row with exactly the supplied username
exists and the supplied password verifies against that row of stored
password hash; for every other combination the operation fails and the
session is left as it was; logout clears the flag and the username
together.  The usernames are assumed pairwise distinct, as the UNIQUE
constraint of the admin table guarantees. -/
theorem login_establishes_session_iff (db : DBState)
    (check : String → String → Bool) (u p : String) (s : Session)
    (huniq : db.admins.Pairwise (fun a b => a.username ≠ b.username)) :
    ((admin_login db check u p s).2 = true ↔
      ∃ a ∈ db.admins, a.username = u ∧ check a.password_hash p = true) ∧
    ((admin_login db check u p s).2 = true →
      (admin_login db check u p s).1 =
        { admin_logged_in := true, admin_username := some u }) ∧
    ((admin_login db check u p s).2 = false →
      (admin_login db check u p s).1 = s) ∧
    admin_logout s = { admin_logged_in := false, admin_username := none } := by
  have hsymm : Symmetric (fun a b : AdminRow => a.username ≠ b.username) :=
    fun x y hxy => fun e => hxy e.symm
  cases hf : db.admins.find? (fun a => a.username == u) with
  | none =>
    have hnone : ∀ a ∈ db.admins, a.username ≠ u := by
      intro a ha
      have := List.find?_eq_none.1 hf a ha
      simpa using this
    refine ⟨?_, ?_, ?_, rfl⟩
    · constructor
      · intro hsucc
        simp [admin_login, hf] at hsucc
      · rintro ⟨a, ha, hau, _⟩
        exact absurd hau (hnone a ha)
    · intro hsucc
      simp [admin_login, hf] at hsucc
    · intro _
      simp [admin_login, hf]
  | some a =>
    have ha_mem : a ∈ db.admins := List.mem_of_find?_eq_some hf
    have ha_u : a.username = u := by simpa using List.find?_some hf
    by_cases hchk : check a.password_hash p = true
    · refine ⟨?_, ?_, ?_, rfl⟩
      · exact ⟨fun _ => ⟨a, ha_mem, ha_u, hchk⟩, fun _ => by simp [admin_login, hf, hchk]⟩
      · intro _
        simp [admin_login, hf, hchk, ha_u]
      · intro hfail
        simp [admin_login, hf, hchk] at hfail
    · have hb : check a.password_hash p = false := by
        cases hcb : check a.password_hash p
        · rfl
        · exact absurd hcb hchk
      refine ⟨?_, ?_, ?_, rfl⟩
      · constructor
        · intro hsucc
          simp [admin_login, hf, hb] at hsucc
        · rintro ⟨b, hbmem, hbu, hbchk⟩
          have hab : a = b := by
            by_cases h : a = b
            · exact h
            · exact absurd (ha_u.trans hbu.symm)
                (List.Pairwise.forall hsymm huniq ha_mem hbmem h)
          exact absurd (hab ▸ hbchk) hchk
      · intro hsucc
        simp [admin_login, hf, hb] at hsucc
      · intro _
        simp [admin_login, hf, hb]

theorem login_establishes_session_iff_witness :
    (admin_login dbW9 checkW9 "admin" "pw" ⟨false, none⟩).2 = true ↔
      ∃ a ∈ dbW9.admins, a.username = "admin" ∧
        checkW9 a.password_hash "pw" = true :=
  (login_establishes_session_iff dbW9 checkW9 "admin" "pw" ⟨false, none⟩
    (by simp [dbW9])).1

/-- An UPDATE whose WHERE clause matches no row leaves the list of rows
unchanged. -/
theorem map_update_id (l : List Complaint) (cid : Nat)
    (g : Complaint → Complaint) (hc : ∀ c ∈ l, c.id ≠ cid) :
    l.map (fun a => if a.id == cid then g a else a) = l := by
  conv_rhs => rw [← List.map_id l]
  exact List.map_congr_left (fun a ha => by
    simp [beq_eq_false_iff_ne.2 (hc a ha)])

/-- C10 counterexample: on a store with no complaint of id 1, a
status-update request for complaint 1 with the valid status value completed
mutates nothing but reports success, rather than returning a not-found
failure as the claim states. -/
theorem update_status_absent_id_reports_success :
    (∀ c ∈ dbW10.complaints, c.id ≠ 1) ∧
    update_status dbW10 0 1 (some "completed") = (dbW10, true) := by
  exact ⟨by simp [dbW10], rfl⟩

/-- C10 amended: an operation that references an entity by identifier
mutates no state when no entity with that identifier exists; delete-student
then returns a not-found failure, but update-status (with a valid status
value) reports success even though no row matched. -/
theorem not_found_identifier_handling (db : DBState) (sid cid : Nat)
    (now : Timestamp) (st : String)
    (hs : ∀ s ∈ db.students, s.id ≠ sid)
    (hc : ∀ c ∈ db.complaints, c.id ≠ cid)
    (hst : st = "pending" ∨ st = "completed") :
    delete_student db sid = (db, false) ∧
    (update_status db now cid (some st)).1 = db ∧
    (update_status db now cid (some st)).2 = true := by
  have hfind : db.students.find? (fun s => s.id == sid) = none := by
    rw [List.find?_eq_none]
    intro s hsm
    simpa using hs s hsm
  refine ⟨by simp [delete_student, hfind], ?_, ?_⟩
  · rcases hst with h | h
    · subst h
      show ({ db with complaints := db.complaints.map (fun a =>
        if a.id == cid then { a with status := "pending", completed_at := none }
        else a) } : DBState) = db
      rw [map_update_id db.complaints cid _ hc]
    · subst h
      show ({ db with complaints := db.complaints.map (fun a =>
        if a.id == cid then { a with status := "completed", completed_at := some now }
        else a) } : DBState) = db
      rw [map_update_id db.complaints cid _ hc]
  · rcases hst with h | h <;> subst h <;> rfl

theorem not_found_identifier_handling_witness :
    delete_student dbW10 3 = (dbW10, false) ∧
    (update_status dbW10 0 3 (some "pending")).1 = dbW10 ∧
    (update_status dbW10 0 3 (some "pending")).2 = true :=
  not_found_identifier_handling dbW10 3 3 0 "pending"
    (by simp [dbW10]) (by simp [dbW10]) (Or.inl rfl)

end StudentsReports
